import Mathlib

/-!
Shallow embedding of the subscription & quota accounting core of the
cyverse-de/subscriptions service, together with proofs about it.

Conventions of the embedding:
* timestamps are modelled as `Int` instants (`CURRENT_TIMESTAMP` becomes an
  explicit `now : Int` parameter);
* SQL `NULL`-able timestamp columns become `Option Int`;
* Go `float64` quantities (quota values, usage values, amounts) are modelled
  as `ℚ`;
* a Go `(T, error)` return value becomes `Except String T`, and a Go
  `(*T, error)` becomes `Except String (Option T)` (`none` = nil pointer);
* the database handle is replaced by explicit row lists / state records, and
  a fallible row insert by an oracle function returning `Option String`
  (`some msg` = the executor failed with that message).
-/

namespace Subscriptions

/-- A resource type row (`resource_types`), as selected by the queries in the
db layer (`id`, `name`, `unit`, `consumable`). -/
structure ResourceType where
  id : String
  name : String
  unit : String
  consumable : Bool
deriving Repr, DecidableEq

/-- A plan rate row (`plan_rates`): `id`, `plan_id`, `effective_date`,
`rate`. -/
structure PlanRate where
  id : String
  planId : String
  effectiveDate : Int
  rate : ℚ
deriving Repr, DecidableEq

/-- A plan quota default row (`plan_quota_defaults`) joined with its resource
type, as selected by `SubscriptionQuotaDefaults`. -/
structure PlanQuotaDefault where
  id : String
  planId : String
  quotaValue : ℚ
  resourceType : ResourceType
  effectiveDate : Int
deriving Repr, DecidableEq

/-- A plan together with its quota defaults and rate history. -/
structure Plan where
  id : String
  name : String
  description : String
  quotaDefaults : List PlanQuotaDefault
  rates : List PlanRate
deriving Repr, DecidableEq

/-- Options for a new subscription (`SubscriptionOptions` in the db layer): `Paid`, `Periods` (int32),
`EndDate` (a timestamp). -/
structure SubscriptionOptions where
  paid : Bool
  periods : Int
  endDate : Int
deriving Repr, DecidableEq

/-- Default options (`DefaultSubscriptionOptions`): paid = false, periods = 1, and an end date
one year after the current time (`time.Now().AddDate(1, 0, 0)`, modelled at
second granularity as 365 days). -/
def DefaultSubscriptionOptions (now : Int) : SubscriptionOptions :=
  { paid := false, periods := 1, endDate := now + 31536000 }

/-- One row of the joined result set produced by `subscriptionDS` (the
`subscriptions` row joined with `users`, `plans` and `plan_rates`): the
fields the claims need. -/
structure JoinedSubscription where
  id : String
  username : String
  planName : String
  effectiveStartDate : Int
  effectiveEndDate : Option Int
  paid : Bool
deriving Repr, DecidableEq

/-- The Go zero value of the scanned `Subscription` struct: what
`ScanStructContext` leaves behind when the query matched no row. -/
def zeroSubscription : JoinedSubscription :=
  { id := "", username := "", planName := "", effectiveStartDate := 0,
    effectiveEndDate := none, paid := false }

/-- The temporal qualification test used (with identical SQL) by
`GetActiveSubscription`, `UserHasActivePlan` and `UserOnPlan`:

`CURRENT_TIMESTAMP BETWEEN effective_start_date AND effective_end_date
 OR (CURRENT_TIMESTAMP > effective_start_date AND effective_end_date IS NULL)`.

SQL `BETWEEN` is inclusive at both ends, and any comparison against a NULL
`effective_end_date` is not true, so a row qualifies iff its end date is set
and `start ≤ now ≤ end`, or its end date is NULL and `start < now`. -/
def activeAt (now : Int) (s : JoinedSubscription) : Bool :=
  match s.effectiveEndDate with
  | some e => decide (s.effectiveStartDate ≤ now) && decide (now ≤ e)
  | none => decide (s.effectiveStartDate < now)

/-- The WHERE clause of `GetActiveSubscription` (and of `UserHasActivePlan`):
rows of the given user that qualify under `activeAt`. -/
def activeFilter (now : Int) (username : String) (rows : List JoinedSubscription) :
    List JoinedSubscription :=
  rows.filter (fun s => s.username == username && activeAt now s)

/-- Models `ORDER BY effective_start_date DESC LIMIT 1` (and, for plan
rates, the maximum-effective-date choice of `Plan.GetActiveRate`): pick an
element whose
key is maximal; on ties the earlier element wins (SQL leaves tie order
unspecified). -/
def pickLatest {α : Type} (key : α → Int) : List α → Option α
  | [] => none
  | a :: rest =>
    match pickLatest key rest with
    | none => some a
    | some b => if key b ≤ key a then some a else some b

/-- Embeds `Database.GetActiveSubscription`: filters the joined subscription rows by
username and the `activeAt` window, orders by `effective_start_date`
descending and takes the first row.  The Go code discards the `found` flag of
`ScanStructContext`, so when no row qualifies it returns the zero-valued
struct (never a nil pointer) and a nil error. -/
def GetActiveSubscription (now : Int) (username : String)
    (rows : List JoinedSubscription) : Except String (Option JoinedSubscription) :=
  match pickLatest (fun s => s.effectiveStartDate) (activeFilter now username rows) with
  | some s => .ok (some s)
  | none => .ok (some zeroSubscription)

/-- Embeds `Database.GetSubscriptionByID`: looks the row up by id; unlike
`GetActiveSubscription` it checks the `found` flag and returns a nil pointer
(`none`) with a nil error when the row is missing. -/
def GetSubscriptionByID (subscriptionID : String)
    (rows : List JoinedSubscription) : Except String (Option JoinedSubscription) :=
  match rows.find? (fun s => s.id == subscriptionID) with
  | some s => .ok (some s)
  | none => .ok none

/-- Embeds `Database.UserHasActivePlan`: counts the rows matching the same username
and `activeAt` window and compares the count with zero. -/
def UserHasActivePlan (now : Int) (username : String)
    (rows : List JoinedSubscription) : Bool :=
  0 < (activeFilter now username rows).length

/-- Embeds `Database.UserOnPlan`: like `UserHasActivePlan` with an additional
`plans.name` equality condition. -/
def UserOnPlan (now : Int) (username planName : String)
    (rows : List JoinedSubscription) : Bool :=
  0 < ((activeFilter now username rows).filter (fun s => s.planName == planName)).length

/-- Modelled from the spec: `Plan.GetActiveRate` is called by
`SetActiveSubscription` but its body is not among the sources; §3 of the spec
says "Multiple rates per plan ordered by effective_date; the rate with the
greatest effective_date ≤ now is active" and §4.2 says the plan "fails with
NoEffectiveRate if the plan has no PlanRate with effective_date ≤ now". -/
def Plan.GetActiveRate (p : Plan) (now : Int) : Option PlanRate :=
  pickLatest (fun r => r.effectiveDate) (p.rates.filter (fun r => r.effectiveDate ≤ now))

/-- Modelled from the spec: `Plan.GetActiveQuotaDefaults` is called by
`SetActiveSubscription` but its body is not among the sources; §4.2 of the
spec describes the loop as running "for every PlanQuotaDefault d belonging to
the plan", so it is modelled as all quota defaults of the plan. -/
def Plan.GetActiveQuotaDefaults (p : Plan) : List PlanQuotaDefault :=
  p.quotaDefaults

/-- A subscription row as inserted by `SetActiveSubscription`: the inserted
record carries `effective_start_date = now`, `effective_end_date = EndDate`,
the user, plan and active plan rate ids, `created_by = last_modified_by =
"de"` and the paid flag; the generated id is returned by the insert. -/
structure SubscriptionRow where
  id : String
  userId : String
  planId : String
  planRateId : String
  effectiveStartDate : Int
  effectiveEndDate : Option Int
  paid : Bool
  createdBy : String
  lastModifiedBy : String
deriving Repr, DecidableEq

/-- A quota row as inserted by `SetActiveSubscription` (columns
`resource_type_id`, `subscription_id`, `quota`, `created_by`,
`last_modified_by`). -/
structure QuotaRow where
  resourceTypeId : String
  subscriptionId : String
  quota : ℚ
  createdBy : String
  lastModifiedBy : String
deriving Repr, DecidableEq

/-- The persisted rows that `SetActiveSubscription` writes to. -/
structure DBState where
  subscriptions : List SubscriptionRow
  quotas : List QuotaRow
deriving Repr, DecidableEq

/-- The subscription record built by `SetActiveSubscription`. -/
def subscriptionRowFor (now : Int) (newId userId : String) (plan : Plan)
    (o : SubscriptionOptions) (rate : PlanRate) : SubscriptionRow :=
  { id := newId, userId := userId, planId := plan.id, planRateId := rate.id,
    effectiveStartDate := now, effectiveEndDate := some o.endDate,
    paid := o.paid, createdBy := "de", lastModifiedBy := "de" }

/-- The body of the quota loop in `SetActiveSubscription`: `quotaValue :=
quotaDefault.QuotaValue * periods`, multiplied by `periods` a second time if
the resource type of the default is consumable. -/
def quotaRowFor (newId : String) (periods : Int) (d : PlanQuotaDefault) : QuotaRow :=
  let v := d.quotaValue * (periods : ℚ)
  { resourceTypeId := d.resourceType.id, subscriptionId := newId,
    quota := if d.resourceType.consumable then v * (periods : ℚ) else v,
    createdBy := "de", lastModifiedBy := "de" }

/-- The quota rows the loop inserts, one per quota default. -/
def quotaRowsFor (newId : String) (o : SubscriptionOptions) (plan : Plan) : List QuotaRow :=
  (plan.GetActiveQuotaDefaults).map (quotaRowFor newId o.periods)

/-- The insert loop of `SetActiveSubscription` over the quota rows: each insert is
executed in turn; on the first failure the loop stops and returns the error,
keeping the rows inserted so far. -/
def runQuotaInserts (execQuota : QuotaRow → Option String) :
    List QuotaRow → List QuotaRow × Option String
  | [] => ([], none)
  | q :: rest =>
    match execQuota q with
    | some e => ([], some e)
    | none =>
      let r := runQuotaInserts execQuota rest
      (q :: r.1, r.2)

/-- Embeds `Database.SetActiveSubscription`: retrieves the active rate of the plan
(failing with the no-effective-rate error before any insert when there is
none), inserts the subscription row, then inserts one quota row per quota
default, returning early with the already-created subscription id if a quota
insert fails.  `execQuota` is the oracle for quota-insert executor failures;
the subscription insert itself is modelled as infallible. -/
def SetActiveSubscription (execQuota : QuotaRow → Option String) (now : Int)
    (newId userId : String) (plan : Plan) (o : SubscriptionOptions)
    (st : DBState) : (String × Option String) × DBState :=
  match plan.GetActiveRate now with
  | none =>
    (("", some ("the " ++ plan.name ++ " subscription plan has no effective rate")), st)
  | some rate =>
    let subRow := subscriptionRowFor now newId userId plan o rate
    let r := runQuotaInserts execQuota (quotaRowsFor newId o plan)
    ((newId, r.2),
     { subscriptions := st.subscriptions ++ [subRow], quotas := st.quotas ++ r.1 })

/-- The list `db.UpdateOperationNames` (src/db/types.go). -/
def UpdateOperationNames : List String := ["ADD", "SET"]

/-- The constant `db.UpdateTypeSet` (src/db/types.go). -/
def UpdateTypeSet : String := "SET"

/-- The constant `db.UpdateTypeAdd` (src/db/types.go). -/
def UpdateTypeAdd : String := "ADD"

/-- A usage row (`usages`): subscription id, resource type id and the running
usage counter. -/
structure UsageRow where
  subscriptionId : String
  resourceTypeId : String
  usage : ℚ
deriving Repr, DecidableEq

/-- A usage row matches the (subscription, resource type) pair. -/
def usageKey (sid rtid : String) (u : UsageRow) : Bool :=
  u.subscriptionId == sid && u.resourceTypeId == rtid

/-- The usage counter stored for a (subscription, resource type) pair, if a
row exists. -/
def usageValue (usages : List UsageRow) (sid rtid : String) : Option ℚ :=
  (usages.find? (usageKey sid rtid)).map (fun u => u.usage)

/-- Modelled from the spec: `Database.GetOperationID` is called by
`AddUsageHandler` but its body is not among the sources; §4.3 says "unknown
operation name fails with InvalidUpdateOperation", the valid names being
`db.UpdateOperationNames`. The operation id is modelled as the name itself. -/
def GetOperationID (op : String) : Except String String :=
  if UpdateOperationNames.contains op then .ok op
  else .error "invalid update operation"

/-- Modelled from the spec: `Database.GetResourceTypeID` is called by
`AddUsageHandler` but its body is not among the sources; §4.3 says the
resource type is resolved by name and unit and an unknown one "fails with
UnknownResourceType". -/
def GetResourceTypeID (rts : List ResourceType) (name unit : String) :
    Except String String :=
  match rts.find? (fun rt => rt.name == name && rt.unit == unit) with
  | some rt => .ok rt.id
  | none => .error "unknown resource type"

/-- Modelled from the spec: `Database.CalculateUsage` is called by
`AddUsageHandler` but its body is not among the sources; §4.3 says: "if no
Usage row exists yet for (subscriptionID, resourceType), create one with
usage_value = amount (for both ADD and SET) ... If a row exists: ADD sets
usage_value += amount; SET sets usage_value = amount", and an unknown
operation name fails with InvalidUpdateOperation. -/
def CalculateUsage (op : String) (sid rtid : String) (amount : ℚ)
    (usages : List UsageRow) : Except String (List UsageRow) :=
  if UpdateOperationNames.contains op then
    match usages.find? (usageKey sid rtid) with
    | none =>
      .ok (usages ++ [{ subscriptionId := sid, resourceTypeId := rtid, usage := amount }])
    | some _ =>
      .ok (usages.map (fun u =>
        if usageKey sid rtid u then
          { u with usage := if op == UpdateTypeAdd then u.usage + amount else amount }
        else u))
  else .error "invalid update operation"

/-- The `qms.AddUsage` request fields used by `AddUsageHandler`. -/
structure AddUsageRequest where
  username : String
  resourceName : String
  resourceUnit : String
  updateType : String
  usageValue : ℚ
deriving Repr, DecidableEq

/-- What `AddUsageHandler` sends back on the reply subject: an error
response, a success response carrying a usage value, or nothing at all. -/
inductive UsageHandlerSent where
  | errorResp (msg : String)
  | successResp (value : ℚ)
  | noResponse
deriving Repr, DecidableEq

/-- Embeds `App.AddUsageHandler` (src/app/usages.go): resolves the active
subscription of the user, validates the update type via `GetOperationID`, resolves the
resource type via `GetResourceTypeID`, and applies the update via
`CalculateUsage`.  Every failure path replies with an error response; the
success path ends the handler without sending any response (the
`UsageResponse` it allocated is never populated or sent).  `FixUsername` is
treated as the identity (per the spec, callers supply already-validated
parameters). -/
def AddUsageHandler (now : Int) (req : AddUsageRequest) (rts : List ResourceType)
    (subs : List JoinedSubscription) (usages : List UsageRow) :
    UsageHandlerSent × List UsageRow :=
  match GetActiveSubscription now req.username subs with
  | .error e => (.errorResp e, usages)
  | .ok subOpt =>
    -- `GetActiveSubscription` never returns a nil pointer (it returns the
    -- zero-valued struct instead), so the default is never taken.
    let sub := subOpt.getD zeroSubscription
    match GetOperationID req.updateType with
    | .error e => (.errorResp e, usages)
    | .ok _ =>
      match GetResourceTypeID rts req.resourceName req.resourceUnit with
      | .error e => (.errorResp e, usages)
      | .ok rtid =>
        match CalculateUsage req.updateType sub.id rtid req.usageValue usages with
        | .error e => (.errorResp e, usages)
        | .ok usages2 => (.noResponse, usages2)

/-- The `qms.AddAddonRequest.Addon` fields used by `AddAddonHandler`. -/
structure AddAddonRequest where
  name : String
  description : String
  defaultAmount : ℚ
  resourceTypeName : String
  resourceTypeUuid : String
deriving Repr, DecidableEq

/-- An available add-on row as inserted by `AddAddon`. -/
structure AddonRow where
  id : String
  name : String
  description : String
  defaultAmount : ℚ
  resourceTypeId : String
deriving Repr, DecidableEq

/-- What `AddAddonHandler` sends back: an error response or the created
add-on. -/
inductive AddonHandlerSent where
  | errorResp (msg : String)
  | successResp (addonId : String)
deriving Repr, DecidableEq

/-- Modelled from the spec: `Database.GetResourceTypeByName` is called by
`AddAddonHandler` but its body is not among the sources; it resolves a
resource type by name, failing when none exists. -/
def GetResourceTypeByName (rts : List ResourceType) (name : String) :
    Except String ResourceType :=
  match rts.find? (fun rt => rt.name == name) with
  | some rt => .ok rt
  | none => .error "resource type not found"

/-- Modelled from the spec: `Database.GetResourceType` is called by
`AddAddonHandler` but its body is not among the sources; it resolves a
resource type by UUID, failing when none exists. -/
def GetResourceType (rts : List ResourceType) (uuid : String) :
    Except String ResourceType :=
  match rts.find? (fun rt => rt.id == uuid) with
  | some rt => .ok rt
  | none => .error "resource type not found"

/-- Embeds `App.AddAddonHandler`: validates the request (non-empty name, non-empty
description, positive default amount, and at least one of resource type name
or uuid), replying with an error and writing nothing when a check fails; only
then does it open a transaction, resolve the resource type (by name when only
the name is given, otherwise by uuid) and insert the add-on.  The transaction
begin/commit and the insert executor are modelled as infallible. -/
def AddAddonHandler (req : AddAddonRequest) (rts : List ResourceType)
    (freshId : String) (addons : List AddonRow) : AddonHandlerSent × List AddonRow :=
  if req.name = "" then (.errorResp "name must be set", addons)
  else if req.description = "" then (.errorResp "descriptions must be set", addons)
  else if req.defaultAmount ≤ 0 then
    (.errorResp "default_amount must be greater than 0.0", addons)
  else if req.resourceTypeName = "" ∧ req.resourceTypeUuid = "" then
    (.errorResp "resource_type.name or resource_type.uuid must be set", addons)
  else
    let lookup :=
      if req.resourceTypeName ≠ "" ∧ req.resourceTypeUuid = "" then
        GetResourceTypeByName rts req.resourceTypeName
      else GetResourceType rts req.resourceTypeUuid
    match lookup with
    | .error e => (.errorResp e, addons)
    | .ok rt =>
      (.successResp freshId,
       addons ++ [{ id := freshId, name := req.name, description := req.description,
                    defaultAmount := req.defaultAmount, resourceTypeId := rt.id }])

/-- Invariant I4 on a subscription row: if the effective end date is set, it
is at or after the effective start date. -/
def I4holds (s : SubscriptionRow) : Bool :=
  match s.effectiveEndDate with
  | none => true
  | some e => decide (s.effectiveStartDate ≤ e)

/-! Concrete sample data used by witnesses and counterexamples. -/

/-- The `cpu.hours` resource type (a consumable resource). -/
def cpuHoursRT : ResourceType :=
  { id := "rt-cpu", name := "cpu.hours", unit := "cpu hours", consumable := true }

/-- The `data.size` resource type (a non-consumable resource). -/
def dataSizeRT : ResourceType :=
  { id := "rt-data", name := "data.size", unit := "bytes", consumable := false }

/-- A sample plan rate effective from instant 0. -/
def basicRate : PlanRate :=
  { id := "rate1", planId := "plan1", effectiveDate := 0, rate := 200 }

/-- A sample plan with one consumable and one non-consumable quota default
and one rate. -/
def basicPlan : Plan :=
  { id := "plan1", name := "Basic", description := "basic plan",
    quotaDefaults :=
      [ { id := "pqd1", planId := "plan1", quotaValue := 20,
          resourceType := cpuHoursRT, effectiveDate := 0 },
        { id := "pqd2", planId := "plan1", quotaValue := 10,
          resourceType := dataSizeRT, effectiveDate := 0 } ],
    rates := [basicRate] }

/-- A sample plan with no rates at all. -/
def noRatePlan : Plan :=
  { id := "plan2", name := "Free", description := "plan without rates",
    quotaDefaults := [], rates := [] }

/-- A subscription row whose window ends exactly at instant 5. -/
def subClosedEndsNow : JoinedSubscription :=
  { id := "s1", username := "u", planName := "Basic", effectiveStartDate := 0,
    effectiveEndDate := some 5, paid := false }

/-- An open-ended subscription row whose window starts exactly at instant 5. -/
def subOpenStartsNow : JoinedSubscription :=
  { id := "s2", username := "u", planName := "Basic", effectiveStartDate := 5,
    effectiveEndDate := none, paid := false }

/-- A subscription row for user alice, active on `[0, 100]`. -/
def aliceSub : JoinedSubscription :=
  { id := "sub1", username := "alice", planName := "Basic",
    effectiveStartDate := 0, effectiveEndDate := some 100, paid := false }

/-- A sample usage update request: ADD 5 cpu.hours for alice. -/
def addUsageReq : AddUsageRequest :=
  { username := "alice", resourceName := "cpu.hours", resourceUnit := "cpu hours",
    updateType := "ADD", usageValue := 5 }

/-- The quota row `SetActiveSubscription` builds for the cpu default of
`basicPlan` with one period. -/
def cpuQuotaRow : QuotaRow :=
  { resourceTypeId := "rt-cpu", subscriptionId := "sub1", quota := 20,
    createdBy := "de", lastModifiedBy := "de" }

/-- The quota row `SetActiveSubscription` builds for the data default of
`basicPlan` with one period. -/
def dataQuotaRow : QuotaRow :=
  { resourceTypeId := "rt-data", subscriptionId := "sub1", quota := 10,
    createdBy := "de", lastModifiedBy := "de" }

/-- A quota-insert executor that fails on the data resource row only. -/
def failSecondExec (r : QuotaRow) : Option String :=
  if r.resourceTypeId == "rt-data" then some "insert failed" else none

/-- An add-addon request whose name is empty (fails validation). -/
def emptyNameAddonReq : AddAddonRequest :=
  { name := "", description := "some description", defaultAmount := 1,
    resourceTypeName := "cpu.hours", resourceTypeUuid := "" }

/-- An active row for user "bob" starting at 0. -/
def overlapEarly : JoinedSubscription :=
  { id := "s4", username := "bob", planName := "Basic", effectiveStartDate := 0,
    effectiveEndDate := some 100, paid := false }

/-- An overlapping active row for user "bob" starting later, at 10. -/
def overlapLate : JoinedSubscription :=
  { id := "s5", username := "bob", planName := "Pro", effectiveStartDate := 10,
    effectiveEndDate := some 100, paid := true }

/-! Helper lemmas about the embedded operations. -/

theorem pickLatest_eq_none {α : Type} (key : α → Int) :
    ∀ l : List α, pickLatest key l = none → l = [] := by
  intro l h
  cases l with
  | nil => rfl
  | cons a rest =>
    exfalso
    unfold pickLatest at h
    cases hr : pickLatest key rest with
    | none => simp [hr] at h
    | some b =>
      simp [hr] at h
      by_cases hb : key b ≤ key a <;> simp [hb] at h

theorem pickLatest_mem {α : Type} (key : α → Int) :
    ∀ (l : List α) (s : α), pickLatest key l = some s → s ∈ l := by
  intro l
  induction l with
  | nil => intro s h; simp [pickLatest] at h
  | cons a rest ih =>
    intro s h
    unfold pickLatest at h
    cases hr : pickLatest key rest with
    | none => simp [hr] at h; simp [h]
    | some b =>
      rw [hr] at h
      by_cases hb : key b ≤ key a
      · simp [hb] at h; simp [h]
      · simp [hb] at h
        exact List.mem_cons_of_mem a (h ▸ ih b hr)

theorem pickLatest_max {α : Type} (key : α → Int) :
    ∀ (l : List α) (s : α), pickLatest key l = some s →
      ∀ t ∈ l, key t ≤ key s := by
  intro l
  induction l with
  | nil => intro s h; simp [pickLatest] at h
  | cons a rest ih =>
    intro s h t ht
    unfold pickLatest at h
    cases hr : pickLatest key rest with
    | none =>
      rw [hr] at h
      simp at h
      have hrest : rest = [] := pickLatest_eq_none key rest hr
      subst hrest
      simp at ht
      subst ht; subst h; exact le_refl _
    | some b =>
      rw [hr] at h
      by_cases hb : key b ≤ key a
      · simp [hb] at h
        subst h
        rcases List.mem_cons.mp ht with h1 | htr
        · subst h1; exact le_refl _
        · exact le_trans (ih b hr t htr) hb
      · simp [hb] at h
        subst h
        rcases List.mem_cons.mp ht with h1 | htr
        · subst h1; omega
        · exact ih _ hr t htr

theorem find?_append_of_none {α : Type} (p : α → Bool) :
    ∀ (l l2 : List α), l.find? p = none → (l ++ l2).find? p = l2.find? p := by
  intro l l2 h
  induction l with
  | nil => rfl
  | cons a rest ih =>
    rw [List.find?_cons] at h
    cases hp : p a with
    | true => rw [hp] at h; exact absurd h (by simp)
    | false =>
      rw [hp] at h
      rw [List.cons_append, List.find?_cons, hp]
      exact ih h

theorem find?_map_of_pred {α : Type} (p : α → Bool) (g : α → α)
    (hg : ∀ x, p (g x) = p x) :
    ∀ l : List α, (l.map g).find? p = (l.find? p).map g := by
  intro l
  induction l with
  | nil => rfl
  | cons a rest ih =>
    rw [List.map_cons, List.find?_cons, List.find?_cons, hg a]
    cases hp : p a with
    | true => rfl
    | false => exact ih

theorem runQuotaInserts_all_ok (execQuota : QuotaRow → Option String) :
    ∀ l : List QuotaRow, (∀ q ∈ l, execQuota q = none) →
      runQuotaInserts execQuota l = (l, none) := by
  intro l
  induction l with
  | nil => intro _; rfl
  | cons a rest ih =>
    intro h
    have ha : execQuota a = none := h a (List.mem_cons_self a rest)
    have hr := ih (fun q hq => h q (List.mem_cons_of_mem a hq))
    unfold runQuotaInserts
    rw [ha, hr]

theorem runQuotaInserts_first_fail (execQuota : QuotaRow → Option String) :
    ∀ (pre : List QuotaRow) (q : QuotaRow) (post : List QuotaRow) (e : String),
      (∀ r ∈ pre, execQuota r = none) → execQuota q = some e →
      runQuotaInserts execQuota (pre ++ q :: post) = (pre, some e) := by
  intro pre
  induction pre with
  | nil =>
    intro q post e _ hq
    rw [List.nil_append]
    unfold runQuotaInserts
    rw [hq]
  | cons a rest ih =>
    intro q post e hpre hq
    have ha : execQuota a = none := hpre a (List.mem_cons_self a rest)
    have hr := ih q post e (fun r hr => hpre r (List.mem_cons_of_mem a hr)) hq
    rw [List.cons_append]
    unfold runQuotaInserts
    rw [ha, hr]

theorem forall2_map_self {α β : Type} (P : α → β → Prop) (f : α → β) :
    ∀ l : List α, (∀ x ∈ l, P x (f x)) → List.Forall₂ P l (l.map f) := by
  intro l
  induction l with
  | nil => intro _; exact List.Forall₂.nil
  | cons a rest ih =>
    intro h
    exact List.Forall₂.cons (h a (List.mem_cons_self a rest))
      (ih (fun x hx => h x (List.mem_cons_of_mem a hx)))

theorem GetActiveRate_eq_none (p : Plan) (now : Int)
    (h : ∀ r ∈ p.rates, now < r.effectiveDate) : p.GetActiveRate now = none := by
  unfold Plan.GetActiveRate
  have hfil : List.filter (fun r => decide (r.effectiveDate ≤ now)) p.rates = [] := by
    rw [List.filter_eq_nil_iff]
    intro r hr
    simp only [decide_eq_true_eq]
    exact not_le.mpr (h r hr)
  rw [hfil]
  rfl

theorem CalculateUsage_ok (op sid rtid : String) (amount : ℚ) (usages : List UsageRow)
    (hop : op = UpdateTypeAdd ∨ op = UpdateTypeSet) :
    ∃ usages2, CalculateUsage op sid rtid amount usages = .ok usages2 ∧
      usageValue usages2 sid rtid =
        some ((usageValue usages sid rtid).elim amount
          (fun x => if op = UpdateTypeAdd then x + amount else amount)) := by
  have hcontains : op ∈ UpdateOperationNames := by
    rcases hop with h | h <;> subst h <;> decide
  cases hfind : usages.find? (usageKey sid rtid) with
  | none =>
    refine ⟨usages ++ [{ subscriptionId := sid, resourceTypeId := rtid, usage := amount }], ?_, ?_⟩
    · simp [CalculateUsage, hcontains, hfind]
    · unfold usageValue
      rw [find?_append_of_none _ _ _ hfind]
      simp [usageValue, usageKey, hfind]
  | some u =>
    have hu : usageKey sid rtid u = true := List.find?_some hfind
    have hg : ∀ x, usageKey sid rtid
        (if usageKey sid rtid x then
          { x with usage := if op == UpdateTypeAdd then x.usage + amount else amount }
        else x) = usageKey sid rtid x := by
      intro x
      by_cases hx : usageKey sid rtid x = true
      · simp only [hx, if_true]
        simp [usageKey] at hx ⊢
        exact hx
      · simp only [Bool.not_eq_true] at hx
        simp [hx]
    refine ⟨usages.map (fun x =>
      if usageKey sid rtid x then
        { x with usage := if op == UpdateTypeAdd then x.usage + amount else amount }
      else x), ?_, ?_⟩
    · simp [CalculateUsage, hcontains, hfind]
    · unfold usageValue
      rw [find?_map_of_pred _ _ hg, hfind]
      by_cases hadd : op = UpdateTypeAdd <;>
        simp [usageValue, hfind, hu, hadd]

end Subscriptions

namespace Subscriptions

/-- Claim C1 (counterexample): at `now = 5`, a candidate whose end date
equals `now` IS selected by the window of `GetActiveSubscription`, and an
open-ended candidate whose start date equals `now` is NOT selected — the
opposite of the claimed end-exclusive / start-inclusive rule. -/
theorem C1_counterexample :
    activeFilter 5 "u" [subClosedEndsNow, subOpenStartsNow] = [subClosedEndsNow] ∧
    GetActiveSubscription 5 "u" [subClosedEndsNow] = .ok (some subClosedEndsNow) ∧
    UserHasActivePlan 5 "u" [subOpenStartsNow] = false := by
  refine ⟨by decide, rfl, by decide⟩

/-- Claim C1 (amended): the active-selection used by `GetActiveSubscription`
(and `UserHasActivePlan`/`UserOnPlan`) selects exactly the candidates of the
user whose closed interval `[start, end]` contains `now` — both endpoints
inclusive — or whose end is unset and `now > start` (start exclusive). -/
theorem C1_active_selection_amended (now : Int) (username : String)
    (rows : List JoinedSubscription) (s : JoinedSubscription) :
    s ∈ activeFilter now username rows ↔
      s ∈ rows ∧ s.username = username ∧
        ((∃ e, s.effectiveEndDate = some e ∧ s.effectiveStartDate ≤ now ∧ now ≤ e) ∨
         (s.effectiveEndDate = none ∧ s.effectiveStartDate < now)) := by
  unfold activeFilter
  rw [List.mem_filter]
  constructor
  · rintro ⟨hm, hc⟩
    rw [Bool.and_eq_true] at hc
    obtain ⟨hname, hact⟩ := hc
    refine ⟨hm, by simpa [beq_iff_eq] using hname, ?_⟩
    unfold activeAt at hact
    cases he : s.effectiveEndDate with
    | some e =>
      rw [he] at hact
      simp at hact
      exact Or.inl ⟨e, rfl, hact.1, hact.2⟩
    | none =>
      rw [he] at hact
      simp at hact
      exact Or.inr ⟨rfl, hact⟩
  · rintro ⟨hm, hname, hcond⟩
    refine ⟨hm, ?_⟩
    rw [Bool.and_eq_true]
    refine ⟨by simp [beq_iff_eq, hname], ?_⟩
    unfold activeAt
    rcases hcond with ⟨e, he, h1, h2⟩ | ⟨he, h1⟩
    · rw [he]; simp [h1, h2]
    · rw [he]; simp [h1]

/-- Claim C1 (witness for the amended form): the closed-interval rule admits
the candidate ending exactly at `now = 5`. -/
theorem C1_active_selection_amended_witness :
    subClosedEndsNow ∈ activeFilter 5 "u" [subClosedEndsNow] :=
  (C1_active_selection_amended 5 "u" [subClosedEndsNow] subClosedEndsNow).mpr
    ⟨by simp, rfl, Or.inl ⟨5, rfl, by decide, by decide⟩⟩

/-- Claim C3 (counterexample): for a username with no qualifying row,
`GetActiveSubscription` does not return a "none"/nil outcome: it returns a
(pointer to a) zero-valued subscription with a nil error, because the Go code
discards the `found` flag of `ScanStructContext`. -/
theorem C3_counterexample :
    GetActiveSubscription 5 "nobody" [] = .ok (some zeroSubscription) ∧
    some zeroSubscription ≠ (none : Option JoinedSubscription) :=
  ⟨rfl, by simp⟩

/-- Claim C3 (amended): when no row qualifies, `GetActiveSubscription`
returns the zero-valued subscription struct with a nil error — callers can
distinguish the outcome from a failure (the error is nil) but only from a
real subscription by inspecting the zero-valued fields; `GetSubscriptionByID`
by contrast returns a genuine nil (`none`) with a nil error for a missing
row. -/
theorem C3_none_outcome_amended (now : Int) (username : String)
    (rows rows2 : List JoinedSubscription) (subscriptionID : String)
    (h : activeFilter now username rows = [])
    (h2 : ∀ s ∈ rows2, ¬ s.id = subscriptionID) :
    GetActiveSubscription now username rows = .ok (some zeroSubscription) ∧
    GetSubscriptionByID subscriptionID rows2 = .ok none := by
  constructor
  · simp [GetActiveSubscription, h, pickLatest]
  · have hf : rows2.find? (fun s => s.id == subscriptionID) = none := by
      rw [List.find?_eq_none]
      intro s hs
      simp [beq_iff_eq]
      exact h2 s hs
    simp [GetSubscriptionByID, hf]

/-- Claim C3 (witness for the amended form): with no rows at all, the lookup
by user returns the zero-valued struct and the lookup by id returns none. -/
theorem C3_none_outcome_amended_witness :
    GetActiveSubscription 5 "nobody" [aliceSub] = .ok (some zeroSubscription) ∧
    GetSubscriptionByID "missing-id" [aliceSub] = .ok none :=
  C3_none_outcome_amended 5 "nobody" [aliceSub] [aliceSub] "missing-id"
    (by decide) (by decide)

/-- Claim C4: when the plan has no rate with `effective_date ≤ now` (in
particular when it has no rates at all), `SetActiveSubscription` fails with
the no-effective-rate error, returns an empty subscription id, and leaves the
persisted state unchanged — no subscription row and no quota rows are
inserted. -/
theorem C4_no_effective_rate (execQuota : QuotaRow → Option String) (now : Int)
    (newId userId : String) (plan : Plan) (o : SubscriptionOptions) (st : DBState)
    (h : ∀ r ∈ plan.rates, now < r.effectiveDate) :
    SetActiveSubscription execQuota now newId userId plan o st =
      (("", some ("the " ++ plan.name ++ " subscription plan has no effective rate")), st) := by
  simp [SetActiveSubscription, GetActiveRate_eq_none plan now h]

/-- Claim C4 (witness): creating a subscription against the rate-less plan
fails with the no-effective-rate error and writes nothing. -/
theorem C4_no_effective_rate_witness :
    SetActiveSubscription (fun _ => none) 5 "sub9" "user9" noRatePlan
        { paid := false, periods := 1, endDate := 100 } ⟨[], []⟩ =
      (("", some ("the " ++ noRatePlan.name ++ " subscription plan has no effective rate")),
       ⟨[], []⟩) :=
  C4_no_effective_rate (fun _ => none) 5 "sub9" "user9" noRatePlan
    { paid := false, periods := 1, endDate := 100 } ⟨[], []⟩ (by simp [noRatePlan])

/-- Claim C2: a successful `SetActiveSubscription` with periods `p ≥ 1`
appends exactly one quota row per plan quota default, each row carrying the
new subscription id, the resource type of the default, and quota
`d.quotaValue * p` — multiplied by `p` a second time when the resource type
is consumable. -/
theorem C2_quota_materialization (now : Int) (newId userId : String) (plan : Plan)
    (o : SubscriptionOptions) (st : DBState) (rate : PlanRate)
    (hrate : plan.GetActiveRate now = some rate) (_hp : 1 ≤ o.periods) :
    ∃ newQuotas : List QuotaRow,
      (SetActiveSubscription (fun _ => none) now newId userId plan o st).2.quotas
          = st.quotas ++ newQuotas ∧
      (SetActiveSubscription (fun _ => none) now newId userId plan o st).1.2 = none ∧
      newQuotas.length = plan.GetActiveQuotaDefaults.length ∧
      List.Forall₂ (fun (d : PlanQuotaDefault) (q : QuotaRow) =>
          q.subscriptionId = newId ∧ q.resourceTypeId = d.resourceType.id ∧
          q.quota = (if d.resourceType.consumable
            then d.quotaValue * (o.periods : ℚ) * (o.periods : ℚ)
            else d.quotaValue * (o.periods : ℚ)))
        plan.GetActiveQuotaDefaults newQuotas := by
  have hrun := runQuotaInserts_all_ok (fun _ => none) (quotaRowsFor newId o plan)
    (fun q _ => rfl)
  refine ⟨quotaRowsFor newId o plan, ?_, ?_, ?_, ?_⟩
  · simp [SetActiveSubscription, hrate, hrun]
  · simp [SetActiveSubscription, hrate, hrun]
  · simp [quotaRowsFor]
  · apply forall2_map_self
    intro d _
    refine ⟨rfl, rfl, ?_⟩
    simp [quotaRowFor]

/-- Claim C2 (witness): on the sample plan with two quota defaults and two
periods, two quota rows are produced, with values 20·2·2 = 80 for the
consumable cpu default and 10·2 = 20 for the non-consumable data default. -/
theorem C2_quota_materialization_witness :
    ∃ newQuotas : List QuotaRow,
      (SetActiveSubscription (fun _ => none) 5 "sub1" "user1" basicPlan
          { paid := false, periods := 2, endDate := 100 } ⟨[], []⟩).2.quotas
          = [] ++ newQuotas ∧
      (SetActiveSubscription (fun _ => none) 5 "sub1" "user1" basicPlan
          { paid := false, periods := 2, endDate := 100 } ⟨[], []⟩).1.2 = none ∧
      newQuotas.length = basicPlan.GetActiveQuotaDefaults.length ∧
      List.Forall₂ (fun (d : PlanQuotaDefault) (q : QuotaRow) =>
          q.subscriptionId = "sub1" ∧ q.resourceTypeId = d.resourceType.id ∧
          q.quota = (if d.resourceType.consumable
            then d.quotaValue * ((2 : Int) : ℚ) * ((2 : Int) : ℚ)
            else d.quotaValue * ((2 : Int) : ℚ)))
        basicPlan.GetActiveQuotaDefaults newQuotas :=
  C2_quota_materialization 5 "sub1" "user1" basicPlan
    { paid := false, periods := 2, endDate := 100 } ⟨[], []⟩ basicRate
    (by decide) (by decide)

/-- Claim C7: if the quota-insert loop of `SetActiveSubscription` fails at
some quota row (all earlier inserts having succeeded), the call returns the
failure together with the already-created subscription id, and the state
keeps the new subscription row and exactly the quota rows inserted before the
failure — nothing is rolled back at this layer. -/
theorem C7_partial_failure (execQuota : QuotaRow → Option String) (now : Int)
    (newId userId : String) (plan : Plan) (o : SubscriptionOptions) (st : DBState)
    (rate : PlanRate) (pre : List QuotaRow) (q : QuotaRow) (post : List QuotaRow)
    (e : String)
    (hrate : plan.GetActiveRate now = some rate)
    (hsplit : quotaRowsFor newId o plan = pre ++ q :: post)
    (hpre : ∀ r ∈ pre, execQuota r = none)
    (hq : execQuota q = some e) :
    SetActiveSubscription execQuota now newId userId plan o st =
      ((newId, some e),
       { subscriptions := st.subscriptions ++ [subscriptionRowFor now newId userId plan o rate],
         quotas := st.quotas ++ pre }) := by
  have hrun := runQuotaInserts_first_fail execQuota pre q post e hpre hq
  simp [SetActiveSubscription, hrate, hsplit, hrun]

/-- Claim C7 (witness): with an executor that fails on the data-resource
quota row, the call returns the new id with the error, and the state holds
the subscription row plus only the cpu quota row inserted before the
failure. -/
theorem C7_partial_failure_witness :
    SetActiveSubscription failSecondExec 5 "sub1" "user1" basicPlan
        { paid := false, periods := 1, endDate := 100 } ⟨[], []⟩ =
      (("sub1", some "insert failed"),
       { subscriptions := [] ++ [subscriptionRowFor 5 "sub1" "user1" basicPlan
           { paid := false, periods := 1, endDate := 100 } basicRate],
         quotas := [] ++ [cpuQuotaRow] }) :=
  C7_partial_failure failSecondExec 5 "sub1" "user1" basicPlan
    { paid := false, periods := 1, endDate := 100 } ⟨[], []⟩ basicRate
    [cpuQuotaRow] dataQuotaRow [] "insert failed"
    (by decide)
    (by norm_num [quotaRowsFor, quotaRowFor, Plan.GetActiveQuotaDefaults, basicPlan,
      cpuHoursRT, dataSizeRT, cpuQuotaRow, dataQuotaRow])
    (by decide) (by decide)

/-- Claim C8: when more than one subscription row qualifies as active for the
user at `now`, `GetActiveSubscription` returns a qualifying row whose
`effective_start_date` is the latest among all qualifying rows. -/
theorem C8_latest_start (now : Int) (username : String)
    (rows : List JoinedSubscription)
    (h : 1 < (activeFilter now username rows).length) :
    ∃ s, GetActiveSubscription now username rows = .ok (some s) ∧
      s ∈ activeFilter now username rows ∧
      ∀ t ∈ activeFilter now username rows,
        t.effectiveStartDate ≤ s.effectiveStartDate := by
  cases hp : pickLatest (fun s => s.effectiveStartDate) (activeFilter now username rows) with
  | none =>
    exfalso
    have hnil := pickLatest_eq_none _ _ hp
    rw [hnil] at h
    simp at h
  | some s =>
    exact ⟨s, by simp [GetActiveSubscription, hp],
      pickLatest_mem _ _ _ hp, pickLatest_max _ _ _ hp⟩

/-- Claim C8 (witness): with two overlapping rows for bob (starts 0 and 10),
the returned row is a qualifying one with the maximal start date. -/
theorem C8_latest_start_witness :
    ∃ s, GetActiveSubscription 50 "bob" [overlapEarly, overlapLate] = .ok (some s) ∧
      s ∈ activeFilter 50 "bob" [overlapEarly, overlapLate] ∧
      ∀ t ∈ activeFilter 50 "bob" [overlapEarly, overlapLate],
        t.effectiveStartDate ≤ s.effectiveStartDate :=
  C8_latest_start 50 "bob" [overlapEarly, overlapLate] (by decide)

/-- Claim C9 (counterexample): `SetActiveSubscription` performs no validation
of the requested end date: called at `now = 10` with `EndDate = 5` it creates
a subscription row with `effective_end_date = 5 < effective_start_date = 10`,
violating invariant I4. -/
theorem C9_counterexample :
    (SetActiveSubscription (fun _ => none) 10 "sub1" "user1" basicPlan
        { paid := false, periods := 1, endDate := 5 } ⟨[], []⟩).2.subscriptions =
      [subscriptionRowFor 10 "sub1" "user1" basicPlan
        { paid := false, periods := 1, endDate := 5 } basicRate] ∧
    I4holds (subscriptionRowFor 10 "sub1" "user1" basicPlan
      { paid := false, periods := 1, endDate := 5 } basicRate) = false := by
  refine ⟨by decide, by decide⟩

/-- Claim C9 (amended): the subscription row created by a successful
`SetActiveSubscription` satisfies invariant I4 exactly when the requested
`EndDate` is at or after the creation instant `now`; the operation performs
no validation, so an `EndDate` earlier than `now` produces a row violating
I4 (the default options, one year ahead, satisfy it). -/
theorem C9_invariant_amended (execQuota : QuotaRow → Option String) (now : Int)
    (newId userId : String) (plan : Plan) (o : SubscriptionOptions) (st : DBState)
    (rate : PlanRate) (hrate : plan.GetActiveRate now = some rate) :
    ∃ row, (SetActiveSubscription execQuota now newId userId plan o st).2.subscriptions
        = st.subscriptions ++ [row] ∧
      (I4holds row = true ↔ now ≤ o.endDate) := by
  refine ⟨subscriptionRowFor now newId userId plan o rate, ?_, ?_⟩
  · simp [SetActiveSubscription, hrate]
  · simp [I4holds, subscriptionRowFor]

/-- Claim C9 (witness for the amended form): at `now = 5` with `EndDate =
100` the created row satisfies I4, per the amended equivalence. -/
theorem C9_invariant_amended_witness :
    ∃ row, (SetActiveSubscription (fun _ => none) 5 "sub1" "user1" basicPlan
        { paid := false, periods := 1, endDate := 100 } ⟨[], []⟩).2.subscriptions
        = [] ++ [row] ∧
      (I4holds row = true ↔ (5 : Int) ≤ 100) :=
  C9_invariant_amended (fun _ => none) 5 "sub1" "user1" basicPlan
    { paid := false, periods := 1, endDate := 100 } ⟨[], []⟩ basicRate (by decide)

/-- Claim C5: the usage ledger creates a missing (subscription, resource
type) row with `usage_value = amount` for both ADD and SET; on an existing
row ADD adds the amount and SET replaces the value; consequently SET v twice
yields v, and ADD v twice starting from no row yields v + v. -/
theorem C5_usage_ledger (sid rtid : String) (amount v : ℚ) (usages : List UsageRow)
    (op : String) (hop : op = UpdateTypeAdd ∨ op = UpdateTypeSet) :
    (usages.find? (usageKey sid rtid) = none →
      ∃ usages2, CalculateUsage op sid rtid amount usages = .ok usages2 ∧
        usageValue usages2 sid rtid = some amount) ∧
    (∀ u, usages.find? (usageKey sid rtid) = some u →
      ∃ usages2, CalculateUsage op sid rtid amount usages = .ok usages2 ∧
        usageValue usages2 sid rtid =
          some (if op = UpdateTypeAdd then u.usage + amount else amount)) ∧
    (∀ usages1, CalculateUsage UpdateTypeSet sid rtid v usages = .ok usages1 →
      ∃ usages2, CalculateUsage UpdateTypeSet sid rtid v usages1 = .ok usages2 ∧
        usageValue usages2 sid rtid = some v) ∧
    (usages.find? (usageKey sid rtid) = none →
      ∀ usages1, CalculateUsage UpdateTypeAdd sid rtid v usages = .ok usages1 →
        ∃ usages2, CalculateUsage UpdateTypeAdd sid rtid v usages1 = .ok usages2 ∧
          usageValue usages2 sid rtid = some (v + v)) := by
  refine ⟨?_, ?_, ?_, ?_⟩
  · intro hfind
    obtain ⟨u2, hc, hv⟩ := CalculateUsage_ok op sid rtid amount usages hop
    refine ⟨u2, hc, ?_⟩
    rw [hv]
    have hval : usageValue usages sid rtid = none := by
      unfold usageValue; rw [hfind]; rfl
    rw [hval]
    rfl
  · intro u hfind
    obtain ⟨u2, hc, hv⟩ := CalculateUsage_ok op sid rtid amount usages hop
    refine ⟨u2, hc, ?_⟩
    rw [hv]
    have hval : usageValue usages sid rtid = some u.usage := by
      unfold usageValue; rw [hfind]; rfl
    rw [hval]
    rfl
  · intro usages1 h1
    obtain ⟨u2, hc, hv⟩ := CalculateUsage_ok UpdateTypeSet sid rtid v usages (Or.inr rfl)
    have heq : u2 = usages1 := Except.ok.inj (hc.symm.trans h1)
    subst heq
    have hval1 : usageValue u2 sid rtid = some v := by
      rw [hv]
      cases usageValue usages sid rtid with
      | none => rfl
      | some x => simp [UpdateTypeSet, UpdateTypeAdd]
    obtain ⟨u3, hc3, hv3⟩ := CalculateUsage_ok UpdateTypeSet sid rtid v u2 (Or.inr rfl)
    refine ⟨u3, hc3, ?_⟩
    rw [hv3, hval1]
    simp [UpdateTypeSet, UpdateTypeAdd]
  · intro hfind usages1 h1
    obtain ⟨u2, hc, hv⟩ := CalculateUsage_ok UpdateTypeAdd sid rtid v usages (Or.inl rfl)
    have heq : u2 = usages1 := Except.ok.inj (hc.symm.trans h1)
    subst heq
    have hval0 : usageValue usages sid rtid = none := by
      unfold usageValue; rw [hfind]; rfl
    have hval1 : usageValue u2 sid rtid = some v := by
      rw [hv, hval0]
      rfl
    obtain ⟨u3, hc3, hv3⟩ := CalculateUsage_ok UpdateTypeAdd sid rtid v u2 (Or.inl rfl)
    refine ⟨u3, hc3, ?_⟩
    rw [hv3, hval1]
    simp

/-- Claim C5 (witness): ADD 5 on an empty ledger creates the row with usage
value 5. -/
theorem C5_usage_ledger_witness :
    ∃ usages2, CalculateUsage "ADD" "sub1" "rt-cpu" 5 [] = .ok usages2 ∧
      usageValue usages2 "sub1" "rt-cpu" = some 5 :=
  (C5_usage_ledger "sub1" "rt-cpu" 5 7 [] "ADD" (Or.inl rfl)).1 rfl

/-- Claim C6 (code bug): on a fully valid usage update (active subscription,
known ADD operation, known resource type), `AddUsageHandler` applies the
update — the ledger afterwards holds the new value 5 — but sends no response
at all: the success path of the handler ends without replying, so the new
usage value is never returned to the caller. -/
theorem C6_no_success_response :
    AddUsageHandler 10 addUsageReq [cpuHoursRT] [aliceSub] [] =
      (UsageHandlerSent.noResponse,
       [{ subscriptionId := "sub1", resourceTypeId := "rt-cpu", usage := 5 }]) ∧
    UsageHandlerSent.noResponse ≠ UsageHandlerSent.successResp 5 := by
  refine ⟨by decide, by simp⟩

/-- Claim C10: `AddAddonHandler` replies with a validation error and writes
nothing whenever the request has an empty name, an empty description, a
non-positive default amount, or neither a resource type name nor uuid; and
whenever the handler writes anything, the request passed all four checks. -/
theorem C10_addon_validation (req : AddAddonRequest) (rts : List ResourceType)
    (freshId : String) (addons : List AddonRow) :
    ((req.name = "" ∨ req.description = "" ∨ req.defaultAmount ≤ 0 ∨
        (req.resourceTypeName = "" ∧ req.resourceTypeUuid = "")) →
      (∃ e, (AddAddonHandler req rts freshId addons).1 = .errorResp e) ∧
      (AddAddonHandler req rts freshId addons).2 = addons) ∧
    ((AddAddonHandler req rts freshId addons).2 ≠ addons →
      ¬ req.name = "" ∧ ¬ req.description = "" ∧ 0 < req.defaultAmount ∧
        (¬ req.resourceTypeName = "" ∨ ¬ req.resourceTypeUuid = "")) := by
  constructor
  · intro hbad
    by_cases h1 : req.name = ""
    · simp [AddAddonHandler, h1]
    by_cases h2 : req.description = ""
    · simp [AddAddonHandler, h1, h2]
    by_cases h3 : req.defaultAmount ≤ 0
    · simp [AddAddonHandler, h1, h2, h3]
    by_cases h4 : req.resourceTypeName = "" ∧ req.resourceTypeUuid = ""
    · simp [AddAddonHandler, h1, h2, h3, h4]
    · rcases hbad with h | h | h | h
      exacts [absurd h h1, absurd h h2, absurd h h3, absurd h h4]
  · intro hne
    by_cases h1 : req.name = ""
    · exact absurd (by simp [AddAddonHandler, h1]) hne
    by_cases h2 : req.description = ""
    · exact absurd (by simp [AddAddonHandler, h1, h2]) hne
    by_cases h3 : req.defaultAmount ≤ 0
    · exact absurd (by simp [AddAddonHandler, h1, h2, h3]) hne
    by_cases h4 : req.resourceTypeName = "" ∧ req.resourceTypeUuid = ""
    · exact absurd (by simp [AddAddonHandler, h1, h2, h3, h4]) hne
    · exact ⟨h1, h2, lt_of_not_le h3, not_and_or.mp h4⟩

/-- Claim C10 (witness): a request with an empty name draws an error reply
and no write. -/
theorem C10_addon_validation_witness :
    (∃ e, (AddAddonHandler emptyNameAddonReq [] "addon1" []).1 = .errorResp e) ∧
    (AddAddonHandler emptyNameAddonReq [] "addon1" []).2 = [] :=
  (C10_addon_validation emptyNameAddonReq [] "addon1" []).1 (Or.inl rfl)

end Subscriptions
